import Mathlib

/-!
Verification of the `core_memo` memoization library (src/lib.rs).

The library offers three cache wrappers over a single `Option` slot:
`MemoExt<T>` (parameter supplied externally at each call), `Memo<T, P>`
(parameter owned by the cache, accessed through `Borrow`), and
`MemoOnce<'p, T>` (parameter held by shared reference).  Each wrapper is
embedded here as a structure whose fields are exactly the Rust struct's
fields, and each method is translated body-by-body.  The associated
function `T::memoize` of the `Memoize` trait is passed explicitly as a
function argument `memoize`; the `Borrow` bound of `Memo` is passed as a
function `borrow`.  Every method whose body may call `T::memoize` is
instrumented to additionally return the number of such calls, so that the
call-counting properties of the specification can be stated; methods whose
bodies contain no call to `T::memoize` keep their plain shape.  `unwrap`
on an `Option` is modelled by returning the `Option` itself (`none` models
the panic).
-/

set_option autoImplicit false

/-- `MemoExt<T: Memoize>` (src/lib.rs lines 209-212): a cache slot with no
stored parameter; fields: `value: Option<T>`. -/
structure MemoExt (T : Type) where
  value : Option T
  deriving DecidableEq

namespace MemoExt

variable {T P : Type}

/-- `MemoExt::new` (line 293): `Self { value: None }`. -/
def new (T : Type) : MemoExt T :=
  { value := none }

/-- `MemoExt::clear` (line 302): `self.value = None`. -/
def clear (m : MemoExt T) : MemoExt T :=
  { m with value := none }

/-- `MemoExt::is_ready` (line 313): `self.value.is_some()`. -/
def is_ready (m : MemoExt T) : Bool :=
  m.value.isSome

/-- `MemoExt::ready` (line 321): `if self.value.is_none() { self.value =
Some(T::memoize(p)) }`; the second component counts the calls to
`T::memoize` performed by this invocation. -/
def ready (memoize : P → T) (m : MemoExt T) (p : P) : MemoExt T × Nat :=
  if m.value.isNone then ({ m with value := some (memoize p) }, 1) else (m, 0)

/-- `MemoExt::update` (line 333): `self.value = Some(T::memoize(p))`; the
second component counts the calls to `T::memoize`. -/
def update (memoize : P → T) (m : MemoExt T) (p : P) : MemoExt T × Nat :=
  ({ m with value := some (memoize p) }, 1)

/-- `MemoExt::try_get` (line 353): `self.value.as_ref()`. -/
def try_get (m : MemoExt T) : Option T :=
  m.value

/-- `MemoExt::try_get` viewed as a full protocol step, for the frame
property: the Rust receiver is `&self` (a shared borrow), so the post-state
is the pre-state unchanged, and the body `self.value.as_ref()` contains no
call to `T::memoize`, so the call count is 0.  Components: (post-state,
returned value, number of `T::memoize` calls). -/
def try_get_step (m : MemoExt T) : MemoExt T × Option T × Nat :=
  (m, try_get m, 0)

/-- `MemoExt::get` (line 344): `self.ready(p); self.try_get().unwrap()`.
Components: (returned value, post-state, number of `T::memoize` calls);
a `none` first component models the `unwrap` panic. -/
def get (memoize : P → T) (m : MemoExt T) (p : P) : Option T × MemoExt T × Nat :=
  let r := ready memoize m p
  (try_get r.1, r.1, r.2)

/-- N consecutive calls to `MemoExt::ready` with the same parameter,
accumulating the total number of `T::memoize` calls. -/
def readyN (memoize : P → T) (m : MemoExt T) (p : P) : Nat → MemoExt T × Nat
  | 0 => (m, 0)
  | Nat.succ n =>
    let r := ready memoize m p
    let s := readyN memoize r.1 p n
    (s.1, r.2 + s.2)

/-- M consecutive calls to `MemoExt::update` with the same parameter,
accumulating the total number of `T::memoize` calls. -/
def updateN (memoize : P → T) (m : MemoExt T) (p : P) : Nat → MemoExt T × Nat
  | 0 => (m, 0)
  | Nat.succ n =>
    let r := update memoize m p
    let s := updateN memoize r.1 p n
    (s.1, r.2 + s.2)

end MemoExt

/-- `Memo<T: Memoize, P: Borrow<T::Param>>` (src/lib.rs lines 229-233): a
cache slot together with the owned parameter; fields: `value: Option<T>`,
`param: P`.  The field projection `Memo.param` also embeds the accessor
method `Memo::param` (line 429), whose body is `&self.param`. -/
structure Memo (T P : Type) where
  value : Option T
  param : P
  deriving DecidableEq

namespace Memo

variable {T P Q : Type}

/-- `Memo::new` (line 363): `Self { value: None, param: p }`. -/
def new (p : P) : Memo T P :=
  { value := none, param := p }

/-- `Memo::clear` (line 373): `self.value = None`. -/
def clear (m : Memo T P) : Memo T P :=
  { m with value := none }

/-- `Memo::is_ready` (line 384): `self.value.is_some()`. -/
def is_ready (m : Memo T P) : Bool :=
  m.value.isSome

/-- `Memo::ready` (line 392): `if self.value.is_none() { self.value =
Some(T::memoize(self.param.borrow())) }`; the second component counts the
calls to `T::memoize`. -/
def ready (memoize : Q → T) (borrow : P → Q) (m : Memo T P) : Memo T P × Nat :=
  if m.value.isNone then ({ m with value := some (memoize (borrow m.param)) }, 1)
  else (m, 0)

/-- `Memo::update` (line 404): `self.value =
Some(T::memoize(self.param.borrow()))`; the second component counts the
calls to `T::memoize`. -/
def update (memoize : Q → T) (borrow : P → Q) (m : Memo T P) : Memo T P × Nat :=
  ({ m with value := some (memoize (borrow m.param)) }, 1)

/-- `Memo::try_get` (line 424): `self.value.as_ref()`. -/
def try_get (m : Memo T P) : Option T :=
  m.value

/-- `Memo::try_get` viewed as a full protocol step, for the frame property:
the receiver is `&self`, so the post-state is the pre-state, and the body
contains no call to `T::memoize`.  Components: (post-state, returned value,
number of `T::memoize` calls). -/
def try_get_step (m : Memo T P) : Memo T P × Option T × Nat :=
  (m, try_get m, 0)

/-- `Memo::get` (line 415): `self.ready(); self.try_get().unwrap()`.
Components: (returned value, post-state, number of `T::memoize` calls);
a `none` first component models the `unwrap` panic. -/
def get (memoize : Q → T) (borrow : P → Q) (m : Memo T P) : Option T × Memo T P × Nat :=
  let r := ready memoize borrow m
  (try_get r.1, r.1, r.2)

/-- `Memo::param_mut` (line 436): `self.clear(); &mut self.param`.
Components: (post-state at the moment the handle is returned, the value the
returned `&mut P` handle points at). -/
def param_mut (m : Memo T P) : Memo T P × P :=
  (clear m, (clear m).param)

/-- A caller writing `f` through the handle returned by `Memo::param_mut`
(models e.g. `memo.param_mut().push(3)`): the call to `param_mut` followed
by the in-place mutation of the parameter it exposes. -/
def param_mut_write (m : Memo T P) (f : P → P) : Memo T P :=
  let r := param_mut m
  { r.1 with param := f r.2 }

/-- `Memo::update_param` (line 446): `self.clear(); op(&mut self.param)`. -/
def update_param (m : Memo T P) (op : P → P) : Memo T P :=
  let m2 := clear m
  { m2 with param := op m2.param }

/-- N consecutive calls to `Memo::ready`, accumulating the total number of
`T::memoize` calls. -/
def readyN (memoize : Q → T) (borrow : P → Q) (m : Memo T P) : Nat → Memo T P × Nat
  | 0 => (m, 0)
  | Nat.succ n =>
    let r := ready memoize borrow m
    let s := readyN memoize borrow r.1 n
    (s.1, r.2 + s.2)

/-- M consecutive calls to `Memo::update`, accumulating the total number of
`T::memoize` calls. -/
def updateN (memoize : Q → T) (borrow : P → Q) (m : Memo T P) : Nat → Memo T P × Nat
  | 0 => (m, 0)
  | Nat.succ n =>
    let r := update memoize borrow m
    let s := updateN memoize borrow r.1 n
    (s.1, r.2 + s.2)

end Memo

/-- `MemoOnce<'p, T: Memoize>` (src/lib.rs lines 283-289): a cache slot
together with a shared reference to the parameter; fields:
`value: Option<T>`, `param: &'p T::Param`.  The referent is immutable while
the cache is alive, so the reference is embedded as the referenced value.
The field projection `MemoOnce.param` also embeds the accessor method
`MemoOnce::param` (line 526), whose body is `&self.param`. -/
structure MemoOnce (T P : Type) where
  value : Option T
  param : P
  deriving DecidableEq

namespace MemoOnce

variable {T P : Type}

/-- `MemoOnce::new` (line 460): `Self { value: None, param: p }`. -/
def new (p : P) : MemoOnce T P :=
  { value := none, param := p }

/-- `MemoOnce::clear` (line 470): `self.value = None`. -/
def clear (m : MemoOnce T P) : MemoOnce T P :=
  { m with value := none }

/-- `MemoOnce::is_ready` (line 481): `self.value.is_some()`. -/
def is_ready (m : MemoOnce T P) : Bool :=
  m.value.isSome

/-- `MemoOnce::ready` (line 489): `if self.value.is_none() { self.value =
Some(T::memoize(self.param)) }`; the second component counts the calls to
`T::memoize`. -/
def ready (memoize : P → T) (m : MemoOnce T P) : MemoOnce T P × Nat :=
  if m.value.isNone then ({ m with value := some (memoize m.param) }, 1) else (m, 0)

/-- `MemoOnce::update` (line 501): `self.value = Some(T::memoize(self.param))`;
the second component counts the calls to `T::memoize`. -/
def update (memoize : P → T) (m : MemoOnce T P) : MemoOnce T P × Nat :=
  ({ m with value := some (memoize m.param) }, 1)

/-- `MemoOnce::try_get` (line 521): `self.value.as_ref()`. -/
def try_get (m : MemoOnce T P) : Option T :=
  m.value

/-- `MemoOnce::try_get` viewed as a full protocol step, for the frame
property: the receiver is `&self`, so the post-state is the pre-state, and
the body contains no call to `T::memoize`.  Components: (post-state,
returned value, number of `T::memoize` calls). -/
def try_get_step (m : MemoOnce T P) : MemoOnce T P × Option T × Nat :=
  (m, try_get m, 0)

/-- `MemoOnce::get` (line 512): `self.ready(); self.try_get().unwrap()`.
Components: (returned value, post-state, number of `T::memoize` calls);
a `none` first component models the `unwrap` panic. -/
def get (memoize : P → T) (m : MemoOnce T P) : Option T × MemoOnce T P × Nat :=
  let r := ready memoize m
  (try_get r.1, r.1, r.2)

/-- N consecutive calls to `MemoOnce::ready`, accumulating the total number
of `T::memoize` calls. -/
def readyN (memoize : P → T) (m : MemoOnce T P) : Nat → MemoOnce T P × Nat
  | 0 => (m, 0)
  | Nat.succ n =>
    let r := ready memoize m
    let s := readyN memoize r.1 n
    (s.1, r.2 + s.2)

/-- M consecutive calls to `MemoOnce::update`, accumulating the total number
of `T::memoize` calls. -/
def updateN (memoize : P → T) (m : MemoOnce T P) : Nat → MemoOnce T P × Nat
  | 0 => (m, 0)
  | Nat.succ n =>
    let r := update memoize m
    let s := updateN memoize r.1 n
    (s.1, r.2 + s.2)

end MemoOnce

/-- `MemoSum` from src/tests.rs lines 195-204: the output of the
sum-of-sequence computation, `MemoSum(i32)`. -/
structure MemoSum where
  val : Int
  deriving DecidableEq

/-- `Memoize for MemoSum` (src/tests.rs lines 198-204):
`fn memoize(p: &[i32]) -> MemoSum { MemoSum(p.iter().sum()) }`. -/
def MemoSum.memoize (p : List Int) : MemoSum :=
  { val := p.sum }

/-- Modelled from the spec, for comparison with `MemoExt.get`:
"`get(param) -> &V`: equivalent to `ensure_ready(param)` followed by
returning the cached reference."  Components as in `MemoExt.get`. -/
def MemoExt.get_spec {T P : Type} (memoize : P → T) (m : MemoExt T) (p : P) :
    Option T × MemoExt T × Nat :=
  let r := MemoExt.ready memoize m p
  (r.1.value, r.1, r.2)

/-- Modelled from the spec, for comparison with `Memo.get`:
"`get() -> &V`" is `ensure_ready()` followed by returning the cached
reference, with the parameter stored internally. -/
def Memo.get_spec {T P Q : Type} (memoize : Q → T) (borrow : P → Q) (m : Memo T P) :
    Option T × Memo T P × Nat :=
  let r := Memo.ready memoize borrow m
  (r.1.value, r.1, r.2)

/-- Modelled from the spec, for comparison with `MemoOnce.get`:
"`get() -> &V`" is `ensure_ready()` followed by returning the cached
reference, with the parameter held by reference. -/
def MemoOnce.get_spec {T P : Type} (memoize : P → T) (m : MemoOnce T P) :
    Option T × MemoOnce T P × Nat :=
  let r := MemoOnce.ready memoize m
  (r.1.value, r.1, r.2)

/-- Step 1 of the `sums` test trace (src/tests.rs lines 206-222):
`Memo::new(vec![1, 2])` followed by `memo.get()`.  The `Borrow<[i32]>`
instance of `Vec<i32>` is the identity on the embedded `List Int`. -/
def sumsStep1 : Option MemoSum × Memo MemoSum (List Int) × Nat :=
  Memo.get MemoSum.memoize id (Memo.new [1, 2])

/-- Step 2 of the `sums` test trace: `memo.param_mut().push(3)` followed by
`memo.get()`. -/
def sumsStep2 : Option MemoSum × Memo MemoSum (List Int) × Nat :=
  Memo.get MemoSum.memoize id (Memo.param_mut_write sumsStep1.2.1 (fun p => p ++ [3]))

/-- Step 3 of the `sums` test trace: `memo.update_param(|p| p.push(4))`
followed by `memo.get()`. -/
def sumsStep3 : Option MemoSum × Memo MemoSum (List Int) × Nat :=
  Memo.get MemoSum.memoize id (Memo.update_param sumsStep2.2.1 (fun p => p ++ [4]))

/-!
### Helper lemmas

Shared facts about iterated `ready`/`update`, proved once per variant.
-/

/-- `MemoExt::ready` iterated on a cache whose slot is occupied never
computes and never changes the state. -/
theorem MemoExt.readyN_of_some_ext {T P : Type} (memoize : P → T) (v : T) (p : P) :
    ∀ n : Nat, MemoExt.readyN memoize { value := some v } p n = ({ value := some v }, 0)
  | 0 => rfl
  | Nat.succ n => by
    simp [MemoExt.readyN, MemoExt.ready, MemoExt.readyN_of_some_ext memoize v p n]

/-- `Memo::ready` iterated on a cache whose slot is occupied never computes
and never changes the state. -/
theorem Memo.readyN_of_some_own {T P Q : Type} (memoize : Q → T) (borrow : P → Q)
    (v : T) (pw : P) :
    ∀ n : Nat,
      Memo.readyN memoize borrow { value := some v, param := pw } n
        = ({ value := some v, param := pw }, 0)
  | 0 => rfl
  | Nat.succ n => by
    simp [Memo.readyN, Memo.ready, Memo.readyN_of_some_own memoize borrow v pw n]

/-- `MemoOnce::ready` iterated on a cache whose slot is occupied never
computes and never changes the state. -/
theorem MemoOnce.readyN_of_some_ref {T P : Type} (memoize : P → T) (v : T) (pw : P) :
    ∀ n : Nat,
      MemoOnce.readyN memoize { value := some v, param := pw } n
        = ({ value := some v, param := pw }, 0)
  | 0 => rfl
  | Nat.succ n => by
    simp [MemoOnce.readyN, MemoOnce.ready, MemoOnce.readyN_of_some_ref memoize v pw n]

/-- M calls to `MemoExt::update` perform exactly M computations. -/
theorem MemoExt.updateN_count_ext {T P : Type} (memoize : P → T) (p : P) :
    ∀ (n : Nat) (m : MemoExt T), (MemoExt.updateN memoize m p n).2 = n := by
  intro n
  induction n with
  | zero => intro m; rfl
  | succ k ih =>
    intro m
    simp [MemoExt.updateN, MemoExt.update, ih]
    omega

/-- After at least one `MemoExt::update`, the slot holds the freshly
computed value. -/
theorem MemoExt.updateN_state_ext {T P : Type} (memoize : P → T) (p : P) :
    ∀ (n : Nat) (m : MemoExt T),
      (MemoExt.updateN memoize m p (n + 1)).1 = { value := some (memoize p) } := by
  intro n
  induction n with
  | zero => intro m; rfl
  | succ k ih =>
    intro m
    exact ih { value := some (memoize p) }

/-- M calls to `Memo::update` perform exactly M computations. -/
theorem Memo.updateN_count_own {T P Q : Type} (memoize : Q → T) (borrow : P → Q) :
    ∀ (n : Nat) (m : Memo T P), (Memo.updateN memoize borrow m n).2 = n := by
  intro n
  induction n with
  | zero => intro m; rfl
  | succ k ih =>
    intro m
    simp [Memo.updateN, Memo.update, ih]
    omega

/-- After at least one `Memo::update`, the slot holds the value freshly
computed from the stored parameter, and the parameter is unchanged. -/
theorem Memo.updateN_state_own {T P Q : Type} (memoize : Q → T) (borrow : P → Q) :
    ∀ (n : Nat) (m : Memo T P),
      (Memo.updateN memoize borrow m (n + 1)).1
        = { value := some (memoize (borrow m.param)), param := m.param } := by
  intro n
  induction n with
  | zero => intro m; rfl
  | succ k ih =>
    intro m
    exact ih { value := some (memoize (borrow m.param)), param := m.param }

/-- M calls to `MemoOnce::update` perform exactly M computations. -/
theorem MemoOnce.updateN_count_ref {T P : Type} (memoize : P → T) :
    ∀ (n : Nat) (m : MemoOnce T P), (MemoOnce.updateN memoize m n).2 = n := by
  intro n
  induction n with
  | zero => intro m; rfl
  | succ k ih =>
    intro m
    simp [MemoOnce.updateN, MemoOnce.update, ih]
    omega

/-- After at least one `MemoOnce::update`, the slot holds the value freshly
computed from the referenced parameter, and the parameter is unchanged. -/
theorem MemoOnce.updateN_state_ref {T P : Type} (memoize : P → T) :
    ∀ (n : Nat) (m : MemoOnce T P),
      (MemoOnce.updateN memoize m (n + 1)).1
        = { value := some (memoize m.param), param := m.param } := by
  intro n
  induction n with
  | zero => intro m; rfl
  | succ k ih =>
    intro m
    exact ih { value := some (memoize m.param), param := m.param }

/-!
### Claim theorems
-/

/-- C1: for every cache of any of the three variants, after `clear()` — and,
for the owned `Memo` variant, after any mutable parameter access
(`param_mut`, with or without a write through the returned handle, or
`update_param`) — `is_ready()` returns `false`, and the next call to
`get()` invokes the `memoize` computation exactly once. -/
theorem clear_invalidates_then_get_recomputes
    {T P Pw Q : Type} (memoize : P → T) (memoizeB : Q → T) (borrow : Pw → Q)
    (me : MemoExt T) (p : P) (mo : Memo T Pw) (mr : MemoOnce T P)
    (f op : Pw → Pw) :
    (MemoExt.is_ready (MemoExt.clear me) = false
      ∧ (MemoExt.get memoize (MemoExt.clear me) p).2.2 = 1)
    ∧ (Memo.is_ready (Memo.clear mo) = false
      ∧ (Memo.get memoizeB borrow (Memo.clear mo)).2.2 = 1)
    ∧ (MemoOnce.is_ready (MemoOnce.clear mr) = false
      ∧ (MemoOnce.get memoize (MemoOnce.clear mr)).2.2 = 1)
    ∧ (Memo.is_ready (Memo.param_mut mo).1 = false
      ∧ (Memo.get memoizeB borrow (Memo.param_mut mo).1).2.2 = 1)
    ∧ (Memo.is_ready (Memo.param_mut_write mo f) = false
      ∧ (Memo.get memoizeB borrow (Memo.param_mut_write mo f)).2.2 = 1)
    ∧ (Memo.is_ready (Memo.update_param mo op) = false
      ∧ (Memo.get memoizeB borrow (Memo.update_param mo op)).2.2 = 1) := by
  simp [MemoExt.is_ready, MemoExt.clear, MemoExt.get, MemoExt.ready, MemoExt.try_get,
    Memo.is_ready, Memo.clear, Memo.get, Memo.ready, Memo.try_get,
    Memo.param_mut, Memo.param_mut_write, Memo.update_param,
    MemoOnce.is_ready, MemoOnce.clear, MemoOnce.get, MemoOnce.ready, MemoOnce.try_get]

/-- C2: for every cache of any of the three variants, after `ready()` or
`get()` returns, `is_ready()` is `true`; a subsequent `get()` with no
intervening `clear` or mutable parameter access performs zero additional
computations, returns the already-cached slot value, and leaves the cache
state unchanged. -/
theorem freshness_invariant {T P Pw Q : Type} (memoize : P → T) (memoizeB : Q → T)
    (borrow : Pw → Q) (me : MemoExt T) (p p2 : P) (mo : Memo T Pw) (mr : MemoOnce T P) :
    (MemoExt.is_ready (MemoExt.ready memoize me p).1 = true
      ∧ MemoExt.get memoize (MemoExt.ready memoize me p).1 p2
          = ((MemoExt.ready memoize me p).1.value, (MemoExt.ready memoize me p).1, 0)
      ∧ MemoExt.is_ready (MemoExt.get memoize me p).2.1 = true
      ∧ MemoExt.get memoize (MemoExt.get memoize me p).2.1 p2
          = ((MemoExt.get memoize me p).2.1.value, (MemoExt.get memoize me p).2.1, 0))
    ∧ (Memo.is_ready (Memo.ready memoizeB borrow mo).1 = true
      ∧ Memo.get memoizeB borrow (Memo.ready memoizeB borrow mo).1
          = ((Memo.ready memoizeB borrow mo).1.value, (Memo.ready memoizeB borrow mo).1, 0)
      ∧ Memo.is_ready (Memo.get memoizeB borrow mo).2.1 = true
      ∧ Memo.get memoizeB borrow (Memo.get memoizeB borrow mo).2.1
          = ((Memo.get memoizeB borrow mo).2.1.value, (Memo.get memoizeB borrow mo).2.1, 0))
    ∧ (MemoOnce.is_ready (MemoOnce.ready memoize mr).1 = true
      ∧ MemoOnce.get memoize (MemoOnce.ready memoize mr).1
          = ((MemoOnce.ready memoize mr).1.value, (MemoOnce.ready memoize mr).1, 0)
      ∧ MemoOnce.is_ready (MemoOnce.get memoize mr).2.1 = true
      ∧ MemoOnce.get memoize (MemoOnce.get memoize mr).2.1
          = ((MemoOnce.get memoize mr).2.1.value, (MemoOnce.get memoize mr).2.1, 0)) := by
  rcases me with ⟨ve⟩
  rcases mo with ⟨vo, pw⟩
  rcases mr with ⟨vr, pr⟩
  cases ve <;> cases vo <;> cases vr <;>
    simp [MemoExt.is_ready, MemoExt.get, MemoExt.ready, MemoExt.try_get,
      Memo.is_ready, Memo.get, Memo.ready, Memo.try_get,
      MemoOnce.is_ready, MemoOnce.get, MemoOnce.ready, MemoOnce.try_get]

/-- C3: for the owned `Memo` variant, `param_mut()` unconditionally clears
the cached slot before returning the handle — `is_ready()` is `false`
immediately afterward, the parameter untouched, and the handle points at
the stored parameter, even if the caller never writes through it — and
`update_param(op)` clears the slot and applies `op` to the stored parameter
in place; a write `f` through the `param_mut` handle likewise leaves the
slot cleared with the parameter replaced by `f` of its old value, so every
mutation path to the parameter clears the slot. -/
theorem param_mutation_clears_slot {T P : Type} (mo : Memo T P) (f op : P → P) :
    ((Memo.param_mut mo).1 = { value := none, param := mo.param }
      ∧ Memo.is_ready (Memo.param_mut mo).1 = false
      ∧ (Memo.param_mut mo).2 = mo.param)
    ∧ Memo.update_param mo op = { value := none, param := op mo.param }
    ∧ Memo.param_mut_write mo f = { value := none, param := f mo.param } := by
  simp [Memo.param_mut, Memo.param_mut_write, Memo.update_param, Memo.clear,
    Memo.is_ready]

/-- C4: for every cache of any of the three variants whose slot starts
empty (the situation the claim describes: the first call finds an empty
slot) and for every N = n + 1 ≥ 1, calling `ready()` N consecutive times
with no invalidation in between performs exactly one computation: the first
call computes and stores, and every subsequent call leaves the cache state
unchanged, so the final state equals the state right after the first
call. -/
theorem ready_idempotent {T P Pw Q : Type} (memoize : P → T) (memoizeB : Q → T)
    (borrow : Pw → Q) (p : P) (pw : Pw) (pr : P) (n1 n2 n3 : Nat) :
    MemoExt.readyN memoize { value := none } p (n1 + 1)
        = ({ value := some (memoize p) }, 1)
    ∧ Memo.readyN memoizeB borrow { value := none, param := pw } (n2 + 1)
        = ({ value := some (memoizeB (borrow pw)), param := pw }, 1)
    ∧ MemoOnce.readyN memoize { value := none, param := pr } (n3 + 1)
        = ({ value := some (memoize pr), param := pr }, 1) := by
  refine ⟨?_, ?_, ?_⟩ <;>
    simp [MemoExt.readyN, MemoExt.ready, MemoExt.readyN_of_some_ext,
      Memo.readyN, Memo.ready, Memo.readyN_of_some_own,
      MemoOnce.readyN, MemoOnce.ready, MemoOnce.readyN_of_some_ref]

/-- C5: for every cache of any of the three variants, M consecutive calls
to `update()` perform exactly M computations, each one unconditionally
overwriting the slot regardless of prior state, and `is_ready()` is `true`
after each call. -/
theorem update_always_recomputes {T P Pw Q : Type} (memoize : P → T)
    (memoizeB : Q → T) (borrow : Pw → Q) (me : MemoExt T) (p : P)
    (mo : Memo T Pw) (mr : MemoOnce T P) (M : Nat) :
    ((MemoExt.updateN memoize me p M).2 = M
      ∧ (∀ j : Nat, MemoExt.is_ready (MemoExt.updateN memoize me p (j + 1)).1 = true)
      ∧ (MemoExt.update memoize me p).1 = { value := some (memoize p) })
    ∧ ((Memo.updateN memoizeB borrow mo M).2 = M
      ∧ (∀ j : Nat, Memo.is_ready (Memo.updateN memoizeB borrow mo (j + 1)).1 = true)
      ∧ (Memo.update memoizeB borrow mo).1
          = { value := some (memoizeB (borrow mo.param)), param := mo.param })
    ∧ ((MemoOnce.updateN memoize mr M).2 = M
      ∧ (∀ j : Nat, MemoOnce.is_ready (MemoOnce.updateN memoize mr (j + 1)).1 = true)
      ∧ (MemoOnce.update memoize mr).1
          = { value := some (memoize mr.param), param := mr.param }) := by
  refine ⟨⟨?_, ?_, ?_⟩, ⟨?_, ?_, ?_⟩, ⟨?_, ?_, ?_⟩⟩
  · exact MemoExt.updateN_count_ext memoize p M me
  · intro j
    rw [MemoExt.updateN_state_ext memoize p j me]
    simp [MemoExt.is_ready]
  · rfl
  · exact Memo.updateN_count_own memoizeB borrow M mo
  · intro j
    rw [Memo.updateN_state_own memoizeB borrow j mo]
    simp [Memo.is_ready]
  · rfl
  · exact MemoOnce.updateN_count_ref memoize M mr
  · intro j
    rw [MemoOnce.updateN_state_ref memoize j mr]
    simp [MemoOnce.is_ready]
  · rfl

/-- C6: for every cache of any of the three variants and every parameter,
`get` coincides with the spec's "`ensure_ready` then return the cached
reference": it equals `get_spec`, its post-state equals the post-state of
`ready`, the value it returns equals the slot content after `ready`, and it
never fails — the returned `Option` is always `some`. -/
theorem get_refines_ready_then_cached {T P Pw Q : Type} (memoize : P → T)
    (memoizeB : Q → T) (borrow : Pw → Q) (me : MemoExt T) (p : P)
    (mo : Memo T Pw) (mr : MemoOnce T P) :
    (MemoExt.get memoize me p = MemoExt.get_spec memoize me p
      ∧ (MemoExt.get memoize me p).2.1 = (MemoExt.ready memoize me p).1
      ∧ (MemoExt.get memoize me p).1 = (MemoExt.ready memoize me p).1.value
      ∧ (MemoExt.get memoize me p).1.isSome = true)
    ∧ (Memo.get memoizeB borrow mo = Memo.get_spec memoizeB borrow mo
      ∧ (Memo.get memoizeB borrow mo).2.1 = (Memo.ready memoizeB borrow mo).1
      ∧ (Memo.get memoizeB borrow mo).1 = (Memo.ready memoizeB borrow mo).1.value
      ∧ (Memo.get memoizeB borrow mo).1.isSome = true)
    ∧ (MemoOnce.get memoize mr = MemoOnce.get_spec memoize mr
      ∧ (MemoOnce.get memoize mr).2.1 = (MemoOnce.ready memoize mr).1
      ∧ (MemoOnce.get memoize mr).1 = (MemoOnce.ready memoize mr).1.value
      ∧ (MemoOnce.get memoize mr).1.isSome = true) := by
  rcases me with ⟨ve⟩
  rcases mo with ⟨vo, pw⟩
  rcases mr with ⟨vr, pr⟩
  cases ve <;> cases vo <;> cases vr <;>
    simp [MemoExt.get, MemoExt.get_spec, MemoExt.ready, MemoExt.try_get,
      Memo.get, Memo.get_spec, Memo.ready, Memo.try_get,
      MemoOnce.get, MemoOnce.get_spec, MemoOnce.ready, MemoOnce.try_get]

/-- C7: for every cache of any of the three variants, `try_get()` leaves
the cache state entirely unchanged — in particular `is_ready()` is the same
before and after — performs zero `memoize` computations, and returns the
cached value when the slot is present and `none` when the slot is empty. -/
theorem try_get_nontriggering {T P Pw : Type} (me : MemoExt T) (v : T)
    (mo : Memo T Pw) (mr : MemoOnce T P) (pw : Pw) (pr : P) :
    ((MemoExt.try_get_step me).1 = me
      ∧ MemoExt.is_ready (MemoExt.try_get_step me).1 = MemoExt.is_ready me
      ∧ (MemoExt.try_get_step me).2.2 = 0
      ∧ MemoExt.try_get { value := some v } = some v
      ∧ MemoExt.try_get { value := none } = (none : Option T))
    ∧ ((Memo.try_get_step mo).1 = mo
      ∧ Memo.is_ready (Memo.try_get_step mo).1 = Memo.is_ready mo
      ∧ (Memo.try_get_step mo).2.2 = 0
      ∧ Memo.try_get { value := some v, param := pw } = some v
      ∧ Memo.try_get { value := none, param := pw } = (none : Option T))
    ∧ ((MemoOnce.try_get_step mr).1 = mr
      ∧ MemoOnce.is_ready (MemoOnce.try_get_step mr).1 = MemoOnce.is_ready mr
      ∧ (MemoOnce.try_get_step mr).2.2 = 0
      ∧ MemoOnce.try_get { value := some v, param := pr } = some v
      ∧ MemoOnce.try_get { value := none, param := pr } = (none : Option T)) := by
  simp [MemoExt.try_get_step, MemoExt.try_get, Memo.try_get_step, Memo.try_get,
    MemoOnce.try_get_step, MemoOnce.try_get]

/-- C8: for every `MemoExt` whose slot is present and for every parameter
`q` — including any `q` different from the parameter the cached value was
computed from — `get(q)` returns the previously cached value unchanged,
performs zero computations, and leaves the state unchanged; `ready(q)` is
likewise a no-op.  The inconsistent parameter is silently ignored rather
than detected. -/
theorem memoext_stale_param_ignored {T P : Type} (memoize : P → T) (v : T) (q : P) :
    MemoExt.get memoize { value := some v } q = (some v, { value := some v }, 0)
    ∧ MemoExt.ready memoize { value := some v } q = ({ value := some v }, 0) := by
  simp [MemoExt.get, MemoExt.ready, MemoExt.try_get]

/-- C9: the `sums` scenario: a `Memo` over the sum-of-sequence computation
with owned parameter initially `[1, 2]` returns 3 from `get()`; after
appending 3 through `param_mut()`, `get()` returns 6; after appending 4 via
`update_param`, `get()` returns 10; and the `memoize` computation has been
invoked exactly 3 times over this whole sequence of calls. -/
theorem sums_scenario :
    sumsStep1.1 = some { val := 3 }
    ∧ sumsStep2.1 = some { val := 6 }
    ∧ sumsStep3.1 = some { val := 10 }
    ∧ sumsStep1.2.2 + sumsStep2.2.2 + sumsStep3.2.2 = 3 := by
  decide

/-- C10: for every owned `Memo`, the operations `clear`, `ready`, `update`,
`get`, and `try_get` leave the stored `param` field unchanged (`is_ready`
and the `param` accessor take the receiver by shared borrow and are
embedded as pure functions of the state); the parameter changes only
through the handle returned by `param_mut` or through the caller-supplied
operation inside `update_param`, so invalidation and recomputation never
perturb the input. -/
theorem memo_ops_preserve_param {T P Q : Type} (memoize : Q → T) (borrow : P → Q)
    (mo : Memo T P) (f op : P → P) :
    (Memo.clear mo).param = mo.param
    ∧ (Memo.ready memoize borrow mo).1.param = mo.param
    ∧ (Memo.update memoize borrow mo).1.param = mo.param
    ∧ (Memo.get memoize borrow mo).2.1.param = mo.param
    ∧ (Memo.try_get_step mo).1.param = mo.param
    ∧ (Memo.param_mut mo).1.param = mo.param
    ∧ (Memo.param_mut_write mo f).param = f mo.param
    ∧ (Memo.update_param mo op).param = op mo.param := by
  rcases mo with ⟨vo, pw⟩
  cases vo <;>
    simp [Memo.clear, Memo.ready, Memo.update, Memo.get, Memo.try_get,
      Memo.try_get_step, Memo.param_mut, Memo.param_mut_write, Memo.update_param]
